import Mathlib

/-! Verification of the per-asset market-making agent (src/src/market_maker.rs).

The Rust code is shallowly embedded: `f64` values are modelled as exact
rationals, the `HashMap<u64, bool>` active-order index as an association
list, gateway calls as lookups into an explicit `Gateway` response oracle
together with a trace of issued calls, and panics (`unwrap`, `unreachable`)
as `Option.none`.  Helpers that the source imports from the surrounding
crate (`truncate_float`, `bps_diff`, `EPSILON`, numeric string parsing) are
not part of the given sources and are modelled from the specification.
-/

namespace MarketMaking

/-- Belief of the agent about one side of its resting orders (struct `RestingOrder`). -/
structure RestingOrder where
  oid : Nat
  position : ℚ
  price : ℚ
deriving DecidableEq, Repr

/-- The mutable agent state of struct `MarketMaker` (configuration fields plus
the believed resting orders, position, latest mid price and the active-order
index; the network client handles are replaced by the `Gateway` oracle). -/
structure MarketMaker where
  asset : String
  target_liquidity : ℚ
  half_spread : Nat
  max_bps_diff : Nat
  max_absolute_position_size : ℚ
  decimals : Nat
  lower_resting : RestingOrder
  upper_resting : RestingOrder
  cur_position : ℚ
  latest_mid_price : ℚ
  active_orders : List (Nat × Bool)
deriving DecidableEq, Repr

/-- Per-order status inside a gateway response (`ExchangeDataStatus`). -/
inductive ExchangeDataStatus where
  | success
  | waitingForFill
  | filled (oid : Nat)
  | resting (oid : Nat)
  | error (msg : String)
deriving DecidableEq, Repr

/-- Top-level tagged gateway response (`ExchangeResponseStatus`); the `ok`
variant carries the optional list of per-order statuses. -/
inductive ExchangeResponseStatus where
  | ok (data : Option (List ExchangeDataStatus))
  | err (msg : String)
deriving DecidableEq, Repr

/-- One call issued to the order-entry gateway; traces of these record which
cancel/place requests a reconciliation pass performed. -/
inductive GatewayCall where
  | cancel (asset : String) (oid : Nat)
  | place (asset : String) (is_buy : Bool) (price : ℚ) (sz : ℚ)
deriving DecidableEq, Repr

/-- Response oracle standing for the exchange client: the synchronous result
each cancel/place request would receive (`Except.error` = transport failure). -/
structure Gateway where
  cancel_response : String → Nat → Except String ExchangeResponseStatus
  place_response : String → Bool → ℚ → ℚ → Except String ExchangeResponseStatus

/-- One fill record of a user-events message. -/
structure Fill where
  coin : String
  side : String
  sz : String
  oid : Nat
deriving DecidableEq, Repr

/-- Feed message (`Message`): an all-mids map, a batch of fills, or another
message type that the agent only logs. -/
inductive Message where
  | AllMids (mids : List (String × String))
  | User (fills : List Fill)
  | other
deriving DecidableEq, Repr

/-- Modelled from the spec: `EPSILON`, the fixed small tolerance imported from
the surrounding crate, is not in the given sources; the spec gives
"a fixed small epsilon, e.g. 1e-6". -/
def EPSILON : ℚ := 1 / 1000000

/-- Modelled from the spec: `truncate_float`, imported from the surrounding
crate, truncates a price to the configured decimal precision with a
selectable rounding direction; `round_up := true` lands one tick above the
truncation, which is the direction the swap branch of the source relies on. -/
def truncate_float (x : ℚ) (decimals : Nat) (round_up : Bool) : ℚ :=
  let pow10 : ℚ := 10 ^ decimals
  let f : ℤ := ⌊x * pow10⌋
  let f : ℤ := if round_up then f + 1 else f
  (f : ℚ) / pow10

/-- Modelled from the spec: `bps_diff`, imported from the surrounding crate,
is the symmetric basis-point difference |a-b| / ((a+b)/2) * 10000. -/
def bps_diff (a b : ℚ) : ℚ := |a - b| / ((a + b) / 2) * 10000

/-- Rust `f64::clamp` restricted to the well-formed case `lo ≤ hi`. -/
def clamp (x lo hi : ℚ) : ℚ := if x < lo then lo else if x > hi then hi else x

/-- Contiguous-sublist test used to model Rust `str::contains`. -/
def containsSub (sub : List Char) : List Char → Bool
  | [] => sub.isEmpty
  | c :: t => sub.isPrefixOf (c :: t) || containsSub sub t

/-- Rust `str::contains`: substring test. -/
def strContains (s sub : String) : Bool := containsSub sub.toList s.toList

/-- Modelled from the spec: numeric string parsing of externally supplied
prices/sizes ("simple conversion, not specified further"); accepts an
optional sign, digits, and an optional fraction part, rejecting anything
else, mirroring how Rust `parse::<f64>` fails on malformed input. -/
def parseDigits : List Char → Option Nat → Option Nat
  | [], acc => acc
  | c :: cs, acc =>
    if c.isDigit then parseDigits cs (some ((acc.getD 0) * 10 + (c.toNat - 48)))
    else none

/-- Modelled from the spec: parse a decimal number string to a rational,
`none` on malformed input (see `parseDigits`). -/
def parseF64 (s : String) : Option ℚ :=
  let cs := s.toList
  let signed : Bool × List Char :=
    match cs with
    | '-' :: rest => (true, rest)
    | _ => (false, cs)
  let intPart := (signed.2).takeWhile (fun c => c ≠ '.')
  let rest := (signed.2).dropWhile (fun c => c ≠ '.')
  let mag : Option ℚ :=
    match rest with
    | [] =>
      match parseDigits intPart none with
      | some n => some (n : ℚ)
      | none => none
    | _ :: frac =>
      match parseDigits intPart none, parseDigits frac none with
      | some n, some f => some ((n : ℚ) + (f : ℚ) / (10 ^ frac.length : ℚ))
      | _, _ => none
  match mag with
  | some m => some (if signed.1 then -m else m)
  | none => none

/-- `HashMap::contains_key`-style lookup on the active-order index. -/
def lookupOid (m : List (Nat × Bool)) (oid : Nat) : Option Bool := m.lookup oid

/-- `HashMap::remove` on the active-order index (drops every binding of the
key; at most one is ever present). -/
def removeOid (m : List (Nat × Bool)) (oid : Nat) : List (Nat × Bool) :=
  m.filter (fun p => p.1 != oid)

/-- `HashMap::insert` on the active-order index. -/
def insertOid (m : List (Nat × Bool)) (oid : Nat) (is_buy : Bool) :
    List (Nat × Bool) :=
  (oid, is_buy) :: removeOid m oid

/-- The benign-staleness test the source applies to a cancel error message
(`e.contains("Order does not exist") || e.contains("already canceled") ||
e.contains("Order already filled")`). -/
def benignMsg (e : String) : Bool :=
  strContains e "Order does not exist" || strContains e "already canceled" ||
    strContains e "Order already filled"

/-- `MarketMaker::attempt_cancel` (src lines 239-301): returns the updated
state, the boolean result, and the trace of gateway calls; `none` models the
`unreachable!()` arm for cancel statuses other than success/error. -/
def attempt_cancel (gw : Gateway) (s : MarketMaker) (asset : String)
    (oid : Nat) : Option (MarketMaker × Bool × List GatewayCall) :=
  if (lookupOid s.active_orders oid).isNone then
    some (s, true, [])
  else
    let calls := [GatewayCall.cancel asset oid]
    match gw.cancel_response asset oid with
    | .error _ => some (s, false, calls)
    | .ok (.err e) =>
      if benignMsg e then
        some ({ s with active_orders := removeOid s.active_orders oid }, true, calls)
      else
        some (s, false, calls)
    | .ok (.ok none) => some (s, false, calls)
    | .ok (.ok (some [])) => some (s, false, calls)
    | .ok (.ok (some (st :: _))) =>
      match st with
      | .success =>
        some ({ s with active_orders := removeOid s.active_orders oid }, true, calls)
      | .error e =>
        if benignMsg e then
          some ({ s with active_orders := removeOid s.active_orders oid }, true, calls)
        else
          some (s, false, calls)
      | _ => none

/-- `MarketMaker::place_order` (src lines 303-371): posts an ALO limit order;
returns the updated state, the `(filled-amount-belief, oid)` pair, and the
trace of gateway calls. -/
def place_order (gw : Gateway) (s : MarketMaker) (asset : String)
    (amount price : ℚ) (is_buy : Bool) :
    MarketMaker × (ℚ × Nat) × List GatewayCall :=
  let calls := [GatewayCall.place asset is_buy price amount]
  match gw.place_response asset is_buy price amount with
  | .error _ => (s, (0, 0), calls)
  | .ok (.err _) => (s, (0, 0), calls)
  | .ok (.ok none) => (s, (0, 0), calls)
  | .ok (.ok (some [])) => (s, (0, 0), calls)
  | .ok (.ok (some (st :: _))) =>
    match st with
    | .resting oid =>
      ({ s with active_orders := insertOid s.active_orders oid is_buy },
        (amount, oid), calls)
    | _ => (s, (0, 0), calls)

/-- Quote-price computation of `potentially_update` (src lines 374-389):
half-spread from the mid, truncation of the two prices in opposite
directions, and the swap branch when the results land within `EPSILON`. -/
def quote_prices (mid : ℚ) (half_spread_bps : Nat) (decimals : Nat) : ℚ × ℚ :=
  let half_spread := mid * (half_spread_bps : ℚ) / 10000
  let lower_price := mid - half_spread
  let upper_price := mid + half_spread
  let lower_price := truncate_float lower_price decimals true
  let upper_price := truncate_float upper_price decimals false
  if |lower_price - upper_price| < EPSILON then
    (truncate_float lower_price decimals false,
      truncate_float upper_price decimals true)
  else
    (lower_price, upper_price)

/-- Lower-side order amount of `potentially_update` (src lines 393-394):
`(max_absolute_position_size - cur_position).clamp(0.0, target_liquidity)`. -/
def lower_order_amount (max_pos cur target : ℚ) : ℚ :=
  clamp (max_pos - cur) 0 target

/-- Upper-side order amount of `potentially_update` (src lines 395-396):
`(max_absolute_position_size + cur_position).clamp(0.0, target_liquidity)`. -/
def upper_order_amount (max_pos cur target : ℚ) : ℚ :=
  clamp (max_pos + cur) 0 target

/-- Deviation test of `potentially_update` (src lines 399-402): requote when
the amount drifted by more than `EPSILON` or the price drifted by more than
`max_bps_diff` basis points. -/
def needs_change (target_amount : ℚ) (r : RestingOrder) (target_price : ℚ)
    (max_bps : Nat) : Bool :=
  decide (|target_amount - r.position| > EPSILON) ||
    decide (bps_diff target_price r.price > (max_bps : ℚ))

/-- `MarketMaker::potentially_update` (src lines 373-459): the reconciliation
pass; returns the final state and the chronological gateway-call trace,
`none` propagating a panic from `attempt_cancel`. -/
def potentially_update (gw : Gateway) (s : MarketMaker) :
    Option (MarketMaker × List GatewayCall) :=
  let pq := quote_prices s.latest_mid_price s.half_spread s.decimals
  let lower_price := pq.1
  let upper_price := pq.2
  let lower_amt :=
    lower_order_amount s.max_absolute_position_size s.cur_position s.target_liquidity
  let upper_amt :=
    upper_order_amount s.max_absolute_position_size s.cur_position s.target_liquidity
  let lower_change := needs_change lower_amt s.lower_resting lower_price s.max_bps_diff
  let upper_change := needs_change upper_amt s.upper_resting upper_price s.max_bps_diff
  match
    (if s.lower_resting.oid ≠ 0 ∧ s.lower_resting.position > EPSILON ∧ lower_change = true
      then attempt_cancel gw s s.asset s.lower_resting.oid
      else some (s, true, [])) with
  | none => none
  | some (s1, ok1, c1) =>
    if ok1 then
      match
        (if s1.upper_resting.oid ≠ 0 ∧ s1.upper_resting.position > EPSILON ∧ upper_change = true
          then attempt_cancel gw s1 s1.asset s1.upper_resting.oid
          else some (s1, true, [])) with
      | none => none
      | some (s2, ok2, c2) =>
        if ok2 then
          let step3 : MarketMaker × List GatewayCall :=
            if lower_amt > EPSILON ∧ lower_change = true then
              let pr := place_order gw s2 s2.asset lower_amt lower_price true
              ({ pr.1 with lower_resting :=
                  { oid := pr.2.1.2, position := pr.2.1.1, price := lower_price } },
                pr.2.2)
            else (s2, [])
          let step4 : MarketMaker × List GatewayCall :=
            if upper_amt > EPSILON ∧ upper_change = true then
              let pr := place_order gw step3.1 step3.1.asset upper_amt upper_price false
              ({ pr.1 with upper_resting :=
                  { oid := pr.2.1.2, position := pr.2.1.1, price := upper_price } },
                pr.2.2)
            else (step3.1, [])
          some (step4.1, c1 ++ c2 ++ step3.2 ++ step4.2)
        else
          some (s2, c1 ++ c2)
    else
      some (s1, c1)

/-- Loop body of the `Message::User` arm of `process_message` (src lines
207-228): apply one fill to the agent state; `none` models the panic of
`fill.sz.parse().unwrap()` on an unparseable size. -/
def apply_fill (s : MarketMaker) (fill : Fill) : Option MarketMaker :=
  if fill.coin = s.asset then
    match parseF64 fill.sz with
    | none => none
    | some amount =>
      if fill.side = "B" then
        let s1 := { s with cur_position := s.cur_position + amount }
        match lookupOid s1.active_orders fill.oid with
        | some is_buy =>
          let s2 := { s1 with active_orders := removeOid s1.active_orders fill.oid }
          if is_buy then
            some { s2 with lower_resting :=
              { s2.lower_resting with position := s2.lower_resting.position - amount } }
          else
            some s2
        | none => some s1
      else
        let s1 := { s with cur_position := s.cur_position - amount }
        match lookupOid s1.active_orders fill.oid with
        | some is_buy =>
          let s2 := { s1 with active_orders := removeOid s1.active_orders fill.oid }
          if is_buy then
            some s2
          else
            some { s2 with upper_resting :=
              { s2.upper_resting with position := s2.upper_resting.position - amount } }
        | none => some s1
  else
    some s

/-- `MarketMaker::process_message` (src lines 182-237): dispatch on the
message type; mid-price updates set `latest_mid_price` and reconcile,
fill batches update bookkeeping and reconcile unless the mid-price sentinel
is still unset; parse failures of the mid are logged and discarded. -/
def process_message (gw : Gateway) (s : MarketMaker) (m : Message) :
    Option (MarketMaker × List GatewayCall) :=
  match m with
  | .AllMids mids =>
    match mids.lookup s.asset with
    | some midStr =>
      match parseF64 midStr with
      | some mid => potentially_update gw { s with latest_mid_price := mid }
      | none => some (s, [])
    | none => some (s, [])
  | .User fills =>
    if s.latest_mid_price < 0 then
      some (s, [])
    else
      match fills.foldlM apply_fill s with
      | none => none
      | some s1 => potentially_update gw s1
  | .other => some (s, [])

/-- Claim-side classifier: a cancel response that is an error of any kind
other than the benign-staleness messages (and not a success and not one of
the statuses the source treats as unreachable). -/
def NonBenignCancelResp : Except String ExchangeResponseStatus → Prop
  | .error _ => True
  | .ok (.err m) => benignMsg m = false
  | .ok (.ok none) => True
  | .ok (.ok (some [])) => True
  | .ok (.ok (some (.error m :: _))) => benignMsg m = false
  | .ok (.ok (some (_ :: _))) => False

/-- Concrete fresh agent state used by witnesses (mirrors the initial values
of the constructor with a scenario-1 style configuration). -/
def baseState : MarketMaker :=
  { asset := "ETH", target_liquidity := 1, half_spread := 5, max_bps_diff := 2,
    max_absolute_position_size := 1, decimals := 2,
    lower_resting := { oid := 0, position := 0, price := -1 },
    upper_resting := { oid := 0, position := 0, price := -1 },
    cur_position := 0, latest_mid_price := -1, active_orders := [] }

/-- Gateway whose every call fails with a transport error. -/
def gwDown : Gateway :=
  { cancel_response := fun _ _ => .error "connection reset",
    place_response := fun _ _ _ _ => .error "connection reset" }

/-- Gateway whose every call returns a non-benign exchange error. -/
def gwErr : Gateway :=
  { cancel_response := fun _ _ => .ok (.err "boom"),
    place_response := fun _ _ _ _ => .ok (.err "boom") }

/-- Gateway whose cancel calls report the benign already-filled error. -/
def gwFilled : Gateway :=
  { cancel_response := fun _ _ => .ok (.err "Order already filled"),
    place_response := fun _ _ _ _ => .ok (.err "boom") }

/-- Witness state with one believed-live lower (buy) order. -/
def lowerLiveState : MarketMaker :=
  { baseState with
      latest_mid_price := 100
      lower_resting := { oid := 5, position := 1, price := 100 }
      active_orders := [(5, true)] }

/-- Fresh state after a first observed mid price of 100. -/
def readyState : MarketMaker := { baseState with latest_mid_price := 100 }

/-- Witness state whose index carries oid 9 recorded as a sell order. -/
def sellIndexedState : MarketMaker :=
  { baseState with latest_mid_price := 100, active_orders := [(9, false)] }

/-! Theorems about the embedded operations. -/

/-- Any successful `attempt_cancel` run issues at most the single cancel
request for the given oid: its trace contains no placement and no cancel of
any other order. -/
theorem attempt_cancel_calls (gw : Gateway) (s : MarketMaker) (asset : String)
    (oid : Nat) (t : MarketMaker) (b : Bool) (cs : List GatewayCall)
    (h : attempt_cancel gw s asset oid = some (t, b, cs)) :
    ∀ c ∈ cs, c = GatewayCall.cancel asset oid := by
  unfold attempt_cancel at h
  split at h
  · injection h with h1
    cases h1
    simp
  · split at h <;> (try split at h) <;> (try split at h) <;>
      first
        | exact Option.noConfusion h
        | (injection h with h1; cases h1; simp)

/-- C5: for every oid absent from the active-order index, `attempt_cancel`
returns true immediately, issues no gateway call (empty trace), and mutates
no state (the returned state is the input state). -/
theorem C5_cancel_absent_oid (gw : Gateway) (s : MarketMaker) (asset : String)
    (oid : Nat) (h : lookupOid s.active_orders oid = none) :
    attempt_cancel gw s asset oid = some (s, true, []) := by
  simp [attempt_cancel, h]

/-- C5 witness: oid 7 was never inserted into the index of the fresh state, and
cancelling it succeeds with no gateway call and no state change. -/
theorem C5_cancel_absent_oid_witness :
    lookupOid baseState.active_orders 7 = none ∧
      attempt_cancel gwErr baseState "ETH" 7 = some (baseState, true, []) :=
  ⟨rfl, C5_cancel_absent_oid gwErr baseState "ETH" 7 rfl⟩

/-- C9: a fill-event message arriving while `latest_mid_price` still holds
the unset sentinel -1.0 is ignored in its entirety: the state is returned
unchanged and no gateway call (hence no reconciliation action) occurs. -/
theorem C9_sentinel_ignores_fills (gw : Gateway) (s : MarketMaker)
    (fills : List Fill) (h : s.latest_mid_price = -1) :
    process_message gw s (.User fills) = some (s, []) := by
  have hneg : s.latest_mid_price < 0 := by rw [h]; norm_num
  simp [process_message, hneg]

/-- C9 witness: on the fresh state (sentinel mid price) a nonempty fill batch
leaves the state untouched and issues no gateway call. -/
theorem C9_sentinel_ignores_fills_witness :
    baseState.latest_mid_price = -1 ∧
      process_message gwErr baseState
        (.User [{ coin := "ETH", side := "B", sz := "0.4", oid := 9 }]) =
        some (baseState, []) :=
  ⟨rfl, C9_sentinel_ignores_fills gwErr baseState _ rfl⟩

/-- C7: for every `cur_position` and `max_absolute_position_size` (and any
nonnegative `target_liquidity`), both computed order amounts lie within
[0, target_liquidity]. -/
theorem C7_amounts_in_range (max_pos cur target : ℚ) (ht : 0 ≤ target) :
    0 ≤ lower_order_amount max_pos cur target ∧
      lower_order_amount max_pos cur target ≤ target ∧
      0 ≤ upper_order_amount max_pos cur target ∧
      upper_order_amount max_pos cur target ≤ target := by
  unfold lower_order_amount upper_order_amount clamp
  refine ⟨?_, ?_, ?_, ?_⟩ <;> split_ifs <;> linarith

/-- C7 witness: at max position 1, current position 3, target liquidity 1,
both amounts are inside [0, 1]. -/
theorem C7_amounts_in_range_witness :
    (0:ℚ) ≤ 1 ∧
      (0 ≤ lower_order_amount 1 3 1 ∧ lower_order_amount 1 3 1 ≤ 1 ∧
        0 ≤ upper_order_amount 1 3 1 ∧ upper_order_amount 1 3 1 ≤ 1) :=
  ⟨by norm_num, C7_amounts_in_range 1 3 1 (by norm_num)⟩

/-- C8 counterexample: with max position 0 and target liquidity 1, the lower
amount is 0 both at position 0 and at the larger position 1, so it does not
strictly decrease as the position increases. -/
theorem C8_counterexample :
    (0:ℚ) < 1 ∧ ¬ lower_order_amount 0 1 1 < lower_order_amount 0 0 1 := by
  constructor
  · norm_num
  · norm_num [lower_order_amount, clamp]

/-- C8 (amended): the lower order amount is weakly decreasing in
`cur_position`; the decrease is strict whenever neither clamp bound is hit,
i.e. when the amount at the smaller position is positive and the amount at
the larger position is below `target_liquidity`. -/
theorem C8_lower_amount_decreasing (max_pos target p1 p2 : ℚ)
    (ht : 0 ≤ target) (h12 : p1 ≤ p2) :
    lower_order_amount max_pos p2 target ≤ lower_order_amount max_pos p1 target ∧
      (p1 < p2 → 0 < lower_order_amount max_pos p1 target →
        lower_order_amount max_pos p2 target < target →
        lower_order_amount max_pos p2 target < lower_order_amount max_pos p1 target) := by
  unfold lower_order_amount clamp
  constructor
  · split_ifs <;> linarith
  · intro hlt hpos hbelow
    split_ifs at hpos hbelow ⊢ <;> linarith

/-- C8 witness: at max position 1, target 1, positions 0 < 1/2, the lower
amount strictly decreases from 1 to 1/2. -/
theorem C8_lower_amount_decreasing_witness :
    (0:ℚ) ≤ 1 ∧ (0:ℚ) ≤ (1/2 : ℚ) ∧
      lower_order_amount 1 (1/2) 1 < lower_order_amount 1 0 1 :=
  ⟨by norm_num, by norm_num,
    (C8_lower_amount_decreasing 1 1 0 (1/2) (by norm_num) (by norm_num)).2
      (by norm_num) (by norm_num [lower_order_amount, clamp])
      (by norm_num [lower_order_amount, clamp])⟩

/-- C1: contrary to the claim, a fill event with an unparseable size string
arriving after the mid price has been set makes the program panic
(`fill.sz.parse().unwrap()`), modelled as `none`; the message is not
discarded gracefully. -/
theorem C1_unparseable_fill_size_panics :
    process_message gwErr readyState
      (.User [{ coin := "ETH", side := "B", sz := "abc", oid := 1 }]) = none := by
  rfl

/-- C10: a fill on the subscribed asset whose oid is recorded in the
active-order index under the opposite side to the fill — a buy-side fill
(side "B") whose stored flag is false, or a sell-side fill (any other side)
whose stored flag is true — still removes the oid from the index and moves
`cur_position` by the fill amount (up for buys, down for sells), while every
other field — in particular both resting-order records — is unchanged. -/
theorem C10_fill_side_mismatch (s : MarketMaker) (fill : Fill) (amount : ℚ)
    (b : Bool)
    (hcoin : fill.coin = s.asset)
    (hsz : parseF64 fill.sz = some amount)
    (hoid : lookupOid s.active_orders fill.oid = some b)
    (hmis : (fill.side = "B" ∧ b = false) ∨ (fill.side ≠ "B" ∧ b = true)) :
    apply_fill s fill =
      some { s with
              cur_position :=
                s.cur_position + (if fill.side = "B" then amount else -amount)
              active_orders := removeOid s.active_orders fill.oid } := by
  rcases hmis with ⟨hside, hb⟩ | ⟨hside, hb⟩ <;> subst hb
  · simp [apply_fill, hcoin, hside, hsz, hoid]
  · simp [apply_fill, hcoin, hside, hsz, hoid, sub_eq_add_neg]

/-- C10 witness: a buy fill of 0.4 for oid 9, which the index records as a
sell order, removes oid 9 and raises the position by 0.4; a sell fill of 0.4
for oid 5, which the index records as a buy order, removes oid 5 and lowers
the position by 0.4; both leave the resting orders untouched. -/
theorem C10_fill_side_mismatch_witness :
    parseF64 "0.4" = some (2/5 : ℚ) ∧
      apply_fill sellIndexedState { coin := "ETH", side := "B", sz := "0.4", oid := 9 } =
        some { sellIndexedState with
                cur_position := sellIndexedState.cur_position + 2/5
                active_orders := removeOid sellIndexedState.active_orders 9 } ∧
      apply_fill lowerLiveState { coin := "ETH", side := "A", sz := "0.4", oid := 5 } =
        some { lowerLiveState with
                cur_position := lowerLiveState.cur_position + -(2/5)
                active_orders := removeOid lowerLiveState.active_orders 5 } :=
  ⟨by with_unfolding_all rfl,
    C10_fill_side_mismatch sellIndexedState _ (2/5) false rfl
      (by with_unfolding_all rfl) rfl (Or.inl ⟨rfl, rfl⟩),
    C10_fill_side_mismatch lowerLiveState _ (2/5) true rfl
      (by with_unfolding_all rfl) rfl (Or.inr ⟨by decide, rfl⟩)⟩

/-- C4: for an oid present in the index, a cancel response that is an error
whose message contains one of the benign-staleness phrases removes the oid
from the index and returns true, exactly like an explicit success status. -/
theorem C4_benign_cancel_error_is_success (gw : Gateway) (s : MarketMaker)
    (asset : String) (oid : Nat) (b : Bool) (m : String)
    (hin : lookupOid s.active_orders oid = some b)
    (hmsg : benignMsg m = true)
    (hresp : gw.cancel_response asset oid = .ok (.err m) ∨
      ∃ rest, gw.cancel_response asset oid = .ok (.ok (some (.error m :: rest)))) :
    attempt_cancel gw s asset oid =
      some ({ s with active_orders := removeOid s.active_orders oid }, true,
        [GatewayCall.cancel asset oid]) := by
  rcases hresp with h | ⟨rest, h⟩ <;> simp [attempt_cancel, hin, h, hmsg]

/-- C4 witness: with oid 5 live in the index, the response
"Order already filled" makes `attempt_cancel` drop oid 5 and return true. -/
theorem C4_benign_cancel_error_is_success_witness :
    lookupOid lowerLiveState.active_orders 5 = some true ∧
      benignMsg "Order already filled" = true ∧
      attempt_cancel gwFilled lowerLiveState "ETH" 5 =
        some ({ lowerLiveState with
                  active_orders := removeOid lowerLiveState.active_orders 5 },
          true, [GatewayCall.cancel "ETH" 5]) :=
  ⟨rfl, rfl,
    C4_benign_cancel_error_is_success gwFilled lowerLiveState "ETH" 5 true
      "Order already filled" rfl rfl (Or.inl rfl)⟩

/-- C6: for an oid present in the index, any cancel error other than the
benign-staleness messages makes `attempt_cancel` return false with the agent
state completely unchanged (one cancel request is traced). -/
theorem C6_nonbenign_cancel_error_no_mutation (gw : Gateway) (s : MarketMaker)
    (asset : String) (oid : Nat) (b : Bool)
    (hin : lookupOid s.active_orders oid = some b)
    (hresp : NonBenignCancelResp (gw.cancel_response asset oid)) :
    attempt_cancel gw s asset oid =
      some (s, false, [GatewayCall.cancel asset oid]) := by
  cases hr : gw.cancel_response asset oid with
  | error e => simp [attempt_cancel, hin, hr]
  | ok r =>
    rw [hr] at hresp
    rcases r with data | m
    · rcases data with _ | statuses
      · simp [attempt_cancel, hin, hr]
      · rcases statuses with _ | ⟨st, rest⟩
        · simp [attempt_cancel, hin, hr]
        · rcases st with _ | _ | o | o | msg
          · exact hresp.elim
          · exact hresp.elim
          · exact hresp.elim
          · exact hresp.elim
          · have hb : benignMsg msg = false := hresp
            simp [attempt_cancel, hin, hr, hb]
    · have hb : benignMsg m = false := hresp
      simp [attempt_cancel, hin, hr, hb]

/-- C6 witness: with oid 5 live in the index, a transport failure leaves the
state unchanged and yields false. -/
theorem C6_nonbenign_cancel_error_no_mutation_witness :
    lookupOid lowerLiveState.active_orders 5 = some true ∧
      attempt_cancel gwDown lowerLiveState "ETH" 5 =
        some (lowerLiveState, false, [GatewayCall.cancel "ETH" 5]) :=
  ⟨rfl,
    C6_nonbenign_cancel_error_no_mutation gwDown lowerLiveState "ETH" 5 true
      rfl trivial⟩

/-- C3: in a reconciliation pass where the lower side has a nonzero resting
oid, a resting amount above `EPSILON`, and needs a requote, a failed cancel
attempt aborts the whole cycle: the pass returns the post-cancel state at
once and its complete gateway trace consists only of that one lower-side
cancel request — no placement (either side) and no upper-side cancel. -/
theorem C3_cancel_fail_aborts_cycle (gw : Gateway) (s t : MarketMaker)
    (cs : List GatewayCall)
    (h1 : s.lower_resting.oid ≠ 0)
    (h2 : s.lower_resting.position > EPSILON)
    (h3 : needs_change
        (lower_order_amount s.max_absolute_position_size s.cur_position
          s.target_liquidity)
        s.lower_resting
        (quote_prices s.latest_mid_price s.half_spread s.decimals).1
        s.max_bps_diff = true)
    (h4 : attempt_cancel gw s s.asset s.lower_resting.oid = some (t, false, cs)) :
    potentially_update gw s = some (t, cs) ∧
      ∀ c ∈ cs, c = GatewayCall.cancel s.asset s.lower_resting.oid := by
  refine ⟨?_, attempt_cancel_calls gw s _ _ t false cs h4⟩
  simp only [potentially_update]
  rw [if_pos ⟨h1, h2, h3⟩, h4]
  rfl

/-- C3 witness: with a live lower buy order (oid 5, size 1) needing a requote
and a gateway whose cancel fails with a transport error, the pass performs
exactly the one lower cancel request and nothing else. -/
theorem C3_cancel_fail_aborts_cycle_witness :
    potentially_update gwDown lowerLiveState =
        some (lowerLiveState, [GatewayCall.cancel "ETH" 5]) ∧
      ∀ c ∈ [GatewayCall.cancel "ETH" 5], c = GatewayCall.cancel "ETH" 5 :=
  C3_cancel_fail_aborts_cycle gwDown lowerLiveState lowerLiveState
    [GatewayCall.cancel "ETH" 5] (by decide)
    (by with_unfolding_all decide) (by with_unfolding_all rfl) rfl

/-- Closed form of an upward truncation: one tick above the floor. -/
theorem truncate_float_true_eq (x : ℚ) (d : Nat) :
    truncate_float x d true = ((⌊x * 10 ^ d⌋ + 1 : ℤ) : ℚ) / 10 ^ d := by
  simp [truncate_float]

/-- Closed form of a downward truncation: the floor itself. -/
theorem truncate_float_false_eq (x : ℚ) (d : Nat) :
    truncate_float x d false = ((⌊x * 10 ^ d⌋ : ℤ) : ℚ) / 10 ^ d := by
  simp [truncate_float]

/-- A value already on the tick grid floors back to itself. -/
theorem floor_intCast_div_mul (n : ℤ) (d : Nat) :
    ⌊((n : ℚ) / 10 ^ d) * 10 ^ d⌋ = n := by
  have hp : ((10 : ℚ) ^ d) ≠ 0 := by positivity
  rw [div_mul_cancel₀ _ hp, Int.floor_intCast]

/-- C2 counterexample: at mid 100, half_spread_bps 0, decimals 2 the
quote calculation of the reconciliation yields lower_price 100.01 and upper_price
100.00 — the truncated prices cross and the swap branch does not fire, so
lower_price < upper_price fails. -/
theorem C2_counterexample :
    ¬ (quote_prices 100 0 2).1 < (quote_prices 100 0 2).2 ∧
      (quote_prices 100 0 2).2 < (quote_prices 100 0 2).1 := by
  with_unfolding_all decide

/-- C2 (amended): whenever the full quoted spread `2 * mid * bps / 10000`
spans at least one price tick `10^-decimals`, the quote calculation produces
lower_price strictly below upper_price, including through the swap branch;
when the raw spread fits inside one tick (e.g. half_spread_bps = 0) the
truncated prices instead cross by exactly one tick. -/
theorem C2_quote_prices_ordered (mid : ℚ) (bps decimals : Nat)
    (h : 1 / (10 : ℚ) ^ decimals ≤ 2 * (mid * (bps : ℚ) / 10000)) :
    (quote_prices mid bps decimals).1 < (quote_prices mid bps decimals).2 := by
  have hp : (0 : ℚ) < 10 ^ decimals := by positivity
  have hp' : ((10 : ℚ) ^ decimals) ≠ 0 := ne_of_gt hp
  have hul : (mid - mid * (bps : ℚ) / 10000) * 10 ^ decimals + 1 ≤
      (mid + mid * (bps : ℚ) / 10000) * 10 ^ decimals := by
    have h1 : (1 / (10 : ℚ) ^ decimals) * 10 ^ decimals ≤
        (2 * (mid * (bps : ℚ) / 10000)) * 10 ^ decimals :=
      mul_le_mul_of_nonneg_right h hp.le
    rw [div_mul_cancel₀ _ hp'] at h1
    nlinarith [h1]
  have hab : ⌊(mid - mid * (bps : ℚ) / 10000) * 10 ^ decimals⌋ + 1 ≤
      ⌊(mid + mid * (bps : ℚ) / 10000) * 10 ^ decimals⌋ := by
    refine Int.le_floor.mpr ?_
    push_cast
    have hfl := Int.floor_le ((mid - mid * (bps : ℚ) / 10000) * 10 ^ decimals)
    linarith [hfl, hul]
  unfold quote_prices
  simp only [truncate_float_true_eq, truncate_float_false_eq,
    floor_intCast_div_mul]
  set A : ℤ := ⌊(mid - mid * (bps : ℚ) / 10000) * 10 ^ decimals⌋ with hA
  set B : ℤ := ⌊(mid + mid * (bps : ℚ) / 10000) * 10 ^ decimals⌋ with hB
  split_ifs with hc
  · show ((A + 1 : ℤ) : ℚ) / 10 ^ decimals < ((B + 1 : ℤ) : ℚ) / 10 ^ decimals
    rw [div_lt_div_iff₀ hp hp]
    have hcast : ((A : ℚ) + 1) ≤ (B : ℚ) := by exact_mod_cast hab
    push_cast
    nlinarith [hcast, hp]
  · show ((A + 1 : ℤ) : ℚ) / 10 ^ decimals < ((B : ℤ) : ℚ) / 10 ^ decimals
    rcases lt_or_eq_of_le hab with hlt | heq
    · rw [div_lt_div_iff₀ hp hp]
      have hcast : ((A : ℚ) + 1) < (B : ℚ) := by exact_mod_cast hlt
      push_cast
      nlinarith [hcast, hp]
    · exfalso
      apply hc
      rw [← heq]
      simp [EPSILON]

/-- C2 witness: the end-to-end scenario configuration mid 100,
half_spread_bps 5, decimals 2 satisfies the one-tick condition and yields
lower_price < upper_price. -/
theorem C2_quote_prices_ordered_witness :
    1 / (10 : ℚ) ^ 2 ≤ 2 * (100 * (5 : ℚ) / 10000) ∧
      (quote_prices 100 5 2).1 < (quote_prices 100 5 2).2 :=
  ⟨by norm_num, C2_quote_prices_ordered 100 5 2 (by norm_num)⟩

end MarketMaking
